import Mathlib

/-!
Verification of the documentation-regeneration transform in
`regenerate_docs.py`.  The script reads an OpenAPI specification and, for
every (path, method) operation, renders one MDX documentation page.  We
shallowly embed the data model (Operation, Parameter, RequestBody,
responses) and the pure rendering pipeline (`clean_filename`,
`generate_mdx_content`, the batch loop of `regenerate_all_docs`) and prove
the specified properties of the rendering.
JSON objects are modelled as association lists in insertion order, which is
the iteration order of Python dicts.
-/

set_option maxRecDepth 16384

namespace RegenDocs

/-- A minimal JSON value, used where the script consumes raw JSON subtrees
(response objects, security requirement entries). -/
inductive Json where
  | null : Json
  | bool : Bool → Json
  | num : Int → Json
  | str : String → Json
  | arr : List Json → Json
  | obj : List (String × Json) → Json
deriving Repr

/-- Python truthiness of a JSON value: empty containers, empty strings,
zero, false and null are falsy. -/
def Json.truthy : Json → Bool
  | .null => false
  | .bool b => b
  | .num n => n != 0
  | .str s => s != ""
  | .arr xs => !xs.isEmpty
  | .obj kvs => !kvs.isEmpty

/-- Lookup of a key in an association list (first match), the embedding of
a Python dict access; dict keys are unique so first match is the match. -/
def assocFind (k : String) : List (String × α) → Option α
  | [] => none
  | (k2, v) :: rest => if k2 = k then some v else assocFind k rest

/-- Schema object of a JSON media type entry: only the presence and value
of a string "$ref" key is ever consulted by the script. -/
structure SchemaObject where
  ref : Option String := none
deriving Repr

/-- A media-type entry of a requestBody content map; the script reads only
its optional "schema" attribute. -/
structure MediaObject where
  schema : Option SchemaObject := none
deriving Repr

/-- The requestBody attribute of an Operation: an optional "content"
mapping keyed by media type. -/
structure RequestBody where
  content : Option (List (String × MediaObject)) := none
deriving Repr

/-- One entry of an Operation's parameter list (data model of the spec:
name, in, schema.type, required, description; all optional). -/
structure Parameter where
  name : Option String := none
  «in» : Option String := none
  schemaType : Option String := none
  required : Bool := false
  description : Option String := none
deriving Repr

/-- An Operation: one HTTP method on one path of the specification. -/
structure Operation where
  summary : Option String := none
  description : Option String := none
  parameters : List Parameter := []
  requestBody : Option RequestBody := none
  responses : List (String × Json) := []
  security : Option (List Json) := none
deriving Repr

/-- Embedding of Python `method.lower()` for ASCII method names: map each
character to its lower-case form. -/
def str_lower (s : String) : String :=
  ⟨s.data.map Char.toLower⟩

/-- Embedding of Python `method.upper()` for ASCII method names: map each
character to its upper-case form. -/
def str_upper (s : String) : String :=
  ⟨s.data.map Char.toUpper⟩

/-- Embedding of Python `path.lstrip(\x27/\x27)`: remove every leading
slash character. -/
def lstripSlash (s : String) : String :=
  ⟨s.data.dropWhile (fun c => c = '/')⟩

/-- Embedding of Python `s.replace(\x27/\x27, \x27-\x27)`: replace each
slash character by a hyphen (the pattern is a single character, so the
substring replacement is a character map). -/
def replaceSlash (s : String) : String :=
  ⟨s.data.map (fun c => if c = '/' then '-' else c)⟩

/-- Embedding of `clean_filename` (regenerate_docs.py lines 16-22). -/
def clean_filename (path method : String) : String :=
  let clean_path := replaceSlash (lstripSlash path)
  str_lower method ++ "-" ++ clean_path ++ ".mdx"

/-- Removal of one single leading slash, as worded by the spec
(section 4.2): used only by `claimed_clean_filename` below. -/
def strip_one_leading (s : String) : String :=
  if s.data.head? = some '/' then ⟨s.data.tail⟩ else s

/-- The Filename Deriver as worded by the spec (section 4.2): strip a
SINGLE leading path separator, then replace every separator by a hyphen.
Written from the claim text, to be compared with `clean_filename`. -/
def claimed_clean_filename (path method : String) : String :=
  str_lower method ++ "-" ++ replaceSlash (strip_one_leading path) ++ ".mdx"

/-- Splitting of a character list on slashes; `acc` holds the current
segment reversed.  The embedding of Python `str.split(\x27/\x27)`. -/
def split_slash_aux : List Char → List Char → List String
  | [], acc => [⟨acc.reverse⟩]
  | c :: rest, acc =>
    if c = '/' then ⟨acc.reverse⟩ :: split_slash_aux rest []
    else split_slash_aux rest (c :: acc)

/-- Last segment of a reference pointer: Python `ref.split(\x27/\x27)[-1]`
(regenerate_docs.py line 41). -/
def last_segment (r : String) : String :=
  (split_slash_aux r.data []).getLastD ""

/-- The body field block emitted for a `$ref` schema (line 42). -/
def body_field_ref (schema_name : String) : String :=
  "<ParamField body=\"data\" type=\"object\" required>\n  Request body data ("
    ++ schema_name ++ ")\n</ParamField>\n\n"

/-- The body field block emitted for a non-reference schema (line 44). -/
def body_field_generic : String :=
  "<ParamField body=\"data\" type=\"object\" required>\n  Request body data\n</ParamField>\n\n"

/-- The request-body block of `generate_mdx_content` (lines 34-44): one
generic body field when a JSON request body is present, empty otherwise. -/
def body_field (op : Operation) : String :=
  match op.requestBody with
  | none => ""
  | some rb =>
    match rb.content with
    | none => ""
    | some content =>
      match assocFind "application/json" content with
      | none => ""
      | some media =>
        match (media.schema.getD {}).ref with
        | some r => body_field_ref (last_segment r)
        | none => body_field_generic

/-- The description rendered for one parameter, with its fallback
(lines 52 and 61): `param.get(\x27description\x27, f\x27...\x27)`. -/
def param_desc (p : Parameter) : String :=
  p.description.getD ((p.name.getD "") ++ " parameter")

/-- One rendered parameter field block (lines 53 and 62); `kind` is the
tag, "path" or "query". -/
def param_field (kind : String) (p : Parameter) : String :=
  "<ParamField " ++ kind ++ "=\"" ++ p.name.getD "" ++ "\" type=\""
    ++ p.schemaType.getD "string" ++ "\" "
    ++ (if p.required then "required" else "") ++ ">\n  " ++ param_desc p
    ++ "\n</ParamField>\n\n"

/-- One pass of the parameter loop (lines 47-53 for "path", 56-62 for
"query"): append a field block for every parameter whose `in` matches. -/
def fields_for (kind : String) : List Parameter → String
  | [] => ""
  | p :: rest =>
    (if p.«in» = some kind then param_field kind p else "") ++ fields_for kind rest

/-- `request_fields` after both loops (lines 34-62): body block, then the
path pass, then the query pass. -/
def request_fields (op : Operation) : String :=
  body_field op ++ fields_for "path" op.parameters ++ fields_for "query" op.parameters

/-- The final value of the Python variable `description` at line 169.  It
is initialised from the Operation at line 27, but the parameter loops
REUSE the same variable name at lines 52 and 61, so after the loops it
holds the description of the last rendered path/query parameter, if any. -/
def final_description (path method : String) (op : Operation) : String :=
  let base := op.description.getD ("API endpoint: " ++ str_upper method ++ " " ++ path)
  match ((op.parameters.filter (fun p => p.«in» = some "query")).getLast?).map param_desc with
  | some d => d
  | none =>
    match ((op.parameters.filter (fun p => p.«in» = some "path")).getLast?).map param_desc with
    | some d => d
    | none => base

/-- The title of line 26: `operation.get(\x27summary\x27, ...)`; the
variable `title` is never reassigned afterwards. -/
def mdx_title (path method : String) (op : Operation) : String :=
  op.summary.getD (str_upper method ++ " " ++ path)

/-- Embedding of Python `k.startswith(c)` for a one-character prefix:
true when the first character of `k` is `c`. -/
def starts_with_char (k : String) (c : Char) : Bool :=
  match k.data with
  | [] => false
  | c2 :: _ => c2 = c

/-- The filter of line 67: responses whose status key starts with a 4 or
a 5 character, in the natural (insertion) order of the mapping. -/
def error_responses (rs : List (String × Json)) : List (String × Json) :=
  rs.filter (fun kv => starts_with_char kv.1 '4' || starts_with_char kv.1 '5')

/-- The three fixed success response fields (lines 73-75). -/
def success_fields : String :=
  "<ResponseField name=\"status\" type=\"number\">\n  HTTP status code: 200\n</ResponseField>\n\n"
    ++ "<ResponseField name=\"message\" type=\"string\">\n  Success message\n</ResponseField>\n\n"
    ++ "<ResponseField name=\"data\" type=\"object\">\n  Response data\n</ResponseField>\n\n"

/-- The three error response fields emitted for one status code
(lines 80-82). -/
def error_triplet (code : String) : String :=
  "<ResponseField name=\"status\" type=\"number\">\n  HTTP status code: "
    ++ code ++ "\n</ResponseField>\n\n"
    ++ "<ResponseField name=\"message\" type=\"string\">\n  Error message\n</ResponseField>\n\n"
    ++ "<ResponseField name=\"error\" type=\"object\">\n  Error details\n</ResponseField>\n\n"

/-- The loop of lines 79-82: three fields per entry of the filtered
error-response mapping, in order. -/
def error_loop : List (String × Json) → String
  | [] => ""
  | (code, _) :: rest => error_triplet code ++ error_loop rest

/-- The success group (lines 66, 71-75): `responses.get(\x27200\x27, \x7b\x7d)`
followed by a truthiness test on the value. -/
def success_group (rs : List (String × Json)) : String :=
  if ((assocFind "200" rs).getD (Json.obj [])).truthy then
    "### Success Responses\n\n" ++ success_fields
  else ""

/-- The error group (lines 77-82): header plus the per-code loop when the
filtered mapping is non-empty. -/
def error_group (rs : List (String × Json)) : String :=
  if (error_responses rs).isEmpty then ""
  else "### Error Responses\n\n" ++ error_loop (error_responses rs)

/-- `response_fields` (lines 70-82): the success group then the error
group, appended in that order to an initially empty string. -/
def response_fields (rs : List (String × Json)) : String :=
  success_group rs ++ error_group rs

/-- The authentication note literal (lines 162-166). -/
def auth_note_text : String :=
  "<Note>\nThis endpoint requires authentication. Include your API key in the `X-API-Key` header or use Bearer token authentication.\n</Note>\n\n"

/-- Lines 159-166: the note is emitted iff `operation.get(\x27security\x27, [])`
is truthy, i.e. iff the attribute is present with a non-empty list. -/
def auth_note (op : Operation) : String :=
  if (op.security.getD []).isEmpty then "" else auth_note_text

/-- The static example section of lines 85-156, parameterized only by
method and path. -/
def example_requests (path method : String) : String :=
  "## Example Request\n\n<CodeGroup>\n\n```bash cURL\ncurl -X "
    ++ str_upper method ++ " \\\n  \x27" ++ path
    ++ "\x27 \\\n  -H \x27Content-Type: application/json\x27 \\\n  -H \x27Authorization: Bearer YOUR_TOKEN\x27\n```\n\n"
    ++ "```javascript JavaScript\nconst response = await fetch(\x27" ++ path
    ++ "\x27, \x7b\n  method: \x27" ++ str_upper method
    ++ "\x27,\n  headers: \x7b\n    \x27Content-Type\x27: \x27application/json\x27,\n    \x27Authorization\x27: \x27Bearer YOUR_TOKEN\x27\n  \x7d,\n  body: JSON.stringify(\x7b\n    // Request body data\n  \x7d)\n\x7d);\n\nconst data = await response.json();\nconsole.log(data);\n```\n\n"
    ++ "```python Python\nimport requests\n\nurl = \x27" ++ path
    ++ "\x27\nheaders = \x7b\n    \x27Content-Type\x27: \x27application/json\x27,\n    \x27Authorization\x27: \x27Bearer YOUR_TOKEN\x27\n\x7d\ndata = \x7b\n    # Request body data\n\x7d\n\nresponse = requests."
    ++ str_lower method
    ++ "(url, headers=headers, json=data)\nresult = response.json()\nprint(result)\n```\n\n</CodeGroup>\n\n"
    ++ "## Example Response\n\n### Success Response\n\n```json\n\x7b\n  \"status\": 200,\n  \"message\": \"Success\",\n  \"data\": \x7b\n    \"key\": \"value\"\n  \x7d\n\x7d\n```\n\n"
    ++ "### Error Response\n\n```json\n\x7b\n  \"status\": 400,\n  \"message\": \"Bad Request\",\n  \"error\": \x7b\n    \"code\": \"VALIDATION_ERROR\",\n    \"details\": \"Invalid input data\"\n  \x7d\n\x7d\n```"

/-- The final template of lines 169-183: front matter, overview, the
optional auth note, the request section, the response-codes section and
the example section, in one fixed order. -/
def generate_mdx_content (path method : String) (op : Operation) : String :=
  "---\ntitle: \"" ++ mdx_title path method op ++ "\"\napi: \""
    ++ str_upper method ++ " " ++ path ++ "\"\ndescription: \""
    ++ final_description path method op ++ "\"\n---\n\n## Overview\n\n"
    ++ final_description path method op ++ "\n\n"
    ++ auth_note op ++ "## Request\n\n" ++ request_fields op
    ++ "## Response Codes\n\n" ++ response_fields op.responses
    ++ example_requests path method

/-- The method filter of line 205, compared after upper-casing. -/
def method_allowed (m : String) : Bool :=
  ["GET", "POST", "PUT", "PATCH", "DELETE"].contains (str_upper m)

/-- The body of the inner loop (lines 204-218): for one (method,
operation) entry of a path item, write one (filename, content) pair and
bump the counter when the method is allowed, else do nothing. -/
def write_step (p : String) (acc : List (String × String) × Nat)
    (mo : String × Operation) : List (String × String) × Nat :=
  if method_allowed mo.1 then
    (acc.1 ++ [(clean_filename p mo.1, generate_mdx_content p mo.1 mo.2)],
     acc.2 + 1)
  else acc

/-- The body of the outer loop (line 203): run the inner loop over all
methods of one path item. -/
def path_step (acc : List (String × String) × Nat)
    (entry : String × List (String × Operation)) : List (String × String) × Nat :=
  entry.2.foldl (write_step entry.1) acc

/-- The batch loop of `regenerate_all_docs` (lines 201-218): iterate all
(path, method) pairs in specification order starting from an empty output
and a zero counter.  Returns the written files in write order together
with the final counter. -/
def regenerate_all_docs (paths : List (String × List (String × Operation))) :
    List (String × String) × Nat :=
  paths.foldl path_step ([], 0)

/-- The (path, method, operation) triples that pass the method filter, in
specification order. -/
def qualifying_pairs (paths : List (String × List (String × Operation))) :
    List (String × String × Operation) :=
  paths.flatMap (fun entry =>
    (entry.2.filter (fun mo => method_allowed mo.1)).map
      (fun mo => (entry.1, mo.1, mo.2)))

/-- The single output file of one qualifying triple. -/
def rendered_file (t : String × String × Operation) : String × String :=
  (clean_filename t.1 t.2.1, generate_mdx_content t.1 t.2.1 t.2.2)

/-- Concatenation of a list of strings, in order. -/
def concat_all : List String → String
  | [] => ""
  | s :: rest => s ++ concat_all rest

/-- A concrete Operation exhibiting the description shadowing: it has its
own description and one path parameter with a different description. -/
def operation_c1 : Operation :=
  { description := some "Fetch a user.",
    parameters :=
      [{ name := some "id", «in» := some "path",
         description := some "The user identifier" }] }

/-- A concrete Operation whose JSON request body schema is a reference. -/
def operation_c6 : Operation :=
  { requestBody := some
      { content := some
          [("application/json",
            { schema := some { ref := some "#/components/schemas/User" } })] } }

/-- One parameter pass equals the field blocks of the parameters with the
matching `in` value, rendered in their original order. -/
theorem fields_for_eq (kind : String) (l : List Parameter) :
    fields_for kind l =
      concat_all ((l.filter (fun p => decide (p.«in» = some kind))).map (param_field kind)) := by
  induction l with
  | nil => rfl
  | cons p rest ih =>
    by_cases h : p.«in» = some kind
    · simp [fields_for, List.filter_cons, h, concat_all, ih]
    · simp [fields_for, List.filter_cons, h, concat_all, ih]

/-- The error loop renders one triplet per entry, in list order. -/
theorem error_loop_eq (l : List (String × Json)) :
    error_loop l = concat_all (l.map (fun kv => error_triplet kv.1)) := by
  induction l with
  | nil => rfl
  | cons kv rest ih =>
    obtain ⟨code, v⟩ := kv
    simp [error_loop, concat_all, ih]

/-- The keys of the filtered error responses are the keys of the mapping
that start with a 4 or a 5, in mapping order. -/
theorem error_responses_keys (rs : List (String × Json)) :
    (error_responses rs).map Prod.fst =
      (rs.map Prod.fst).filter (fun k => starts_with_char k '4' || starts_with_char k '5') := by
  induction rs with
  | nil => rfl
  | cons kv rest ih =>
    obtain ⟨k, v⟩ := kv
    by_cases h : (starts_with_char k '4' || starts_with_char k '5') = true
    · simp [error_responses, List.filter_cons, h] at ih ⊢
      exact ih
    · simp [error_responses, List.filter_cons, h] at ih ⊢
      exact ih

/-- Mapping preserves emptiness. -/
theorem isEmpty_map (f : α → β) (l : List α) : (l.map f).isEmpty = l.isEmpty := by
  cases l <;> rfl

/-- The inner write loop appends one (filename, content) pair per allowed
method, in order, and bumps the counter once per such pair. -/
theorem write_step_foldl (p : String) (items : List (String × Operation)) :
    ∀ acc : List (String × String) × Nat,
      items.foldl (write_step p) acc =
        (acc.1 ++ (items.filter (fun mo => method_allowed mo.1)).map
            (fun mo => rendered_file (p, mo.1, mo.2)),
         acc.2 + (items.filter (fun mo => method_allowed mo.1)).length) := by
  induction items with
  | nil => intro acc; simp
  | cons mo rest ih =>
    intro acc
    by_cases h : method_allowed mo.1 = true
    · simp [List.foldl_cons, write_step, h, ih, List.filter_cons, rendered_file]
      omega
    · simp [List.foldl_cons, write_step, h, ih, List.filter_cons]

/-- The outer loop appends the rendered file of every qualifying
(path, method) pair, in specification order. -/
theorem path_step_foldl (paths : List (String × List (String × Operation))) :
    ∀ acc : List (String × String) × Nat,
      paths.foldl path_step acc =
        (acc.1 ++ (qualifying_pairs paths).map rendered_file,
         acc.2 + (qualifying_pairs paths).length) := by
  induction paths with
  | nil => intro acc; simp [qualifying_pairs]
  | cons entry rest ih =>
    intro acc
    rw [List.foldl_cons, path_step, write_step_foldl, ih]
    simp only [qualifying_pairs, List.flatMap_cons, List.map_append, List.map_map,
      List.length_append, List.length_map, List.append_assoc, Prod.mk.injEq]
    constructor
    · rfl
    · omega

/-- C1.  The claim says the description substituted into the front matter
and the overview is the Operation's own `description`, unaffected by the
`parameters` list.  The code reuses the Python variable `description`
inside the parameter loops, so for this Operation — whose `description`
attribute is "Fetch a user." — the substituted text is the path
parameter's description instead.  This contradicts the spec's Document
Assembler contract: a code bug exhibited at a concrete input. -/
theorem C1_description_shadowed :
    operation_c1.description = some "Fetch a user." ∧
    final_description "/users/\x7bid\x7d" "get" operation_c1 = "The user identifier" ∧
    final_description "/users/\x7bid\x7d" "get" operation_c1 ≠ "Fetch a user." := by
  refine ⟨rfl, rfl, ?_⟩
  decide

/-- C2 counterexample.  The claim says the success group is non-empty
exactly when the `responses` mapping contains the key "200".  For the
mapping \x7b"200": \x7b\x7d\x7d the key is present, yet the code tests
Python truthiness of the value, which is falsy for the empty object, so
the rendered success group is empty. -/
theorem C2_counterexample :
    assocFind "200" [("200", Json.obj [])] = some (Json.obj []) ∧
    success_group [("200", Json.obj [])] = "" := by
  exact ⟨rfl, rfl⟩

/-- C2 amended.  The rendered response text is the success group followed
by the error group; the success group is non-empty exactly when the
mapping contains the key "200" with a truthy value, and whenever it is
non-empty it is one fixed header plus the three fixed fields, independent
of the declared response schema. -/
theorem C2_success_group (rs : List (String × Json)) :
    response_fields rs = success_group rs ++ error_group rs ∧
    (success_group rs ≠ "" ↔ ∃ v, assocFind "200" rs = some v ∧ v.truthy = true) ∧
    (∀ v, assocFind "200" rs = some v → v.truthy = true →
      success_group rs = "### Success Responses\n\n" ++ success_fields) := by
  refine ⟨rfl, ?_, ?_⟩
  · cases h : assocFind "200" rs with
    | none =>
      simp [success_group, h, Json.truthy]
    | some v =>
      cases hv : v.truthy with
      | false => simp [success_group, h, hv]
      | true =>
        simp only [success_group, h, Option.getD_some, hv, if_true]
        constructor
        · intro _; exact ⟨v, rfl, hv⟩
        · intro _; decide
  · intro v hv htr
    simp [success_group, hv, htr]

/-- C2 witness: a mapping with a non-empty "200" response object renders
the fixed success group. -/
theorem C2_success_group_witness :
    success_group [("200", Json.obj [("description", Json.str "OK")])] =
      "### Success Responses\n\n" ++ success_fields :=
  (C2_success_group [("200", Json.obj [("description", Json.str "OK")])]).2.2
    (Json.obj [("description", Json.str "OK")]) rfl rfl

/-- C3 counterexample.  The claim (and the spec's section 4.2) says a
SINGLE leading separator is stripped; the code strips every leading slash
with `lstrip`, so for the path "//users" the claimed name and the derived
name differ. -/
theorem C3_counterexample :
    claimed_clean_filename "//users" "GET" = "get--users.mdx" ∧
    clean_filename "//users" "GET" = "get-users.mdx" ∧
    clean_filename "//users" "GET" ≠ claimed_clean_filename "//users" "GET" := by
  refine ⟨by decide, by decide, by decide⟩

/-- C3 amended.  For every path that does not begin with two separators —
in particular every normalized OpenAPI path — the derived filename is
exactly the claimed pure transform: lower-cased method, hyphen, the path
with its single leading separator stripped and every remaining separator
replaced by a hyphen, and the fixed ".mdx" extension. -/
theorem C3_clean_filename (path method : String)
    (h : path.data.take 2 ≠ ['/', '/']) :
    clean_filename path method = claimed_clean_filename path method := by
  have key : lstripSlash path = strip_one_leading path := by
    obtain ⟨l⟩ := path
    cases l with
    | nil => rfl
    | cons c rest =>
      by_cases hc : c = '/'
      · subst hc
        cases rest with
        | nil => simp [lstripSlash, strip_one_leading, List.dropWhile]
        | cons c2 r2 =>
          have hc2 : ¬(c2 = '/') := by
            intro hE
            exact h (by simp [hE, List.take])
          simp [lstripSlash, strip_one_leading, List.dropWhile, hc2]
      · simp [lstripSlash, strip_one_leading, List.dropWhile, hc]
  rw [clean_filename, claimed_clean_filename, key]

/-- C3 witness: at a concrete normalized path the two transforms agree and
produce the documented name. -/
theorem C3_clean_filename_witness :
    clean_filename "/users/\x7bid\x7d" "GET" = claimed_clean_filename "/users/\x7bid\x7d" "GET" ∧
    clean_filename "/users/\x7bid\x7d" "GET" = "get-users-\x7bid\x7d.mdx" :=
  ⟨C3_clean_filename "/users/\x7bid\x7d" "GET" (by decide), by decide⟩

/-- C4.  The rendered parameter blocks are: the body field (empty when no
JSON request body is present), then the blocks of all parameters with
`in` equal to "path" in their original order, then the blocks of all
parameters with `in` equal to "query" in their original order. -/
theorem C4_parameter_field_order (op : Operation) :
    request_fields op =
      body_field op
        ++ concat_all ((op.parameters.filter (fun p => decide (p.«in» = some "path"))).map
            (param_field "path"))
        ++ concat_all ((op.parameters.filter (fun p => decide (p.«in» = some "query"))).map
            (param_field "query")) := by
  rw [request_fields, fields_for_eq, fields_for_eq]

/-- C5.  The error group contains one fixed triplet per status key whose
first character is 4 or 5, iterated in the mapping's natural order, each
embedding the literal code; for the mapping with keys "200", "400",
"404" (and non-empty response objects) the rendered response text is one
success group and exactly the two triplets embedding 400 and 404. -/
theorem C5_error_group (rs : List (String × Json)) :
    error_group rs =
      (if ((rs.map Prod.fst).filter (fun k => starts_with_char k '4' || starts_with_char k '5')).isEmpty
       then ""
       else "### Error Responses\n\n" ++
         concat_all (((rs.map Prod.fst).filter
            (fun k => starts_with_char k '4' || starts_with_char k '5')).map error_triplet)) ∧
    response_fields
        [("200", Json.obj [("description", Json.str "OK")]),
         ("400", Json.obj [("description", Json.str "Bad Request")]),
         ("404", Json.obj [("description", Json.str "Not Found")])] =
      ("### Success Responses\n\n" ++ success_fields)
        ++ ("### Error Responses\n\n" ++ (error_triplet "400" ++ error_triplet "404")) := by
  constructor
  · have hm : (error_responses rs).map (fun kv => error_triplet kv.1) =
        ((rs.map Prod.fst).filter
          (fun k => starts_with_char k '4' || starts_with_char k '5')).map error_triplet := by
      rw [← error_responses_keys, List.map_map]
      rfl
    have he : (error_responses rs).isEmpty =
        ((rs.map Prod.fst).filter
          (fun k => starts_with_char k '4' || starts_with_char k '5')).isEmpty := by
      rw [← error_responses_keys, isEmpty_map]
    rw [error_group, error_loop_eq, hm, he]
  · decide

/-- C6.  When the Operation's requestBody has an application/json content
entry, the rendered body block is exactly one generic field: with the
referenced schema's last path segment in its description when the schema
is a reference, and with the generic description otherwise; the last
segment of "#/components/schemas/User" is "User". -/
theorem C6_body_field (op : Operation) (rb : RequestBody)
    (content : List (String × MediaObject)) (media : MediaObject)
    (h1 : op.requestBody = some rb) (h2 : rb.content = some content)
    (h3 : assocFind "application/json" content = some media) :
    (∀ r, (media.schema.getD {}).ref = some r →
        body_field op = body_field_ref (last_segment r)) ∧
    ((media.schema.getD {}).ref = none → body_field op = body_field_generic) ∧
    last_segment "#/components/schemas/User" = "User" := by
  refine ⟨?_, ?_, by decide⟩
  · intro r hr
    simp only [body_field, h1, h2, h3, hr]
  · intro hr
    simp only [body_field, h1, h2, h3, hr]

/-- C6 witness: a concrete Operation whose body schema is the User
reference renders the body block naming User. -/
theorem C6_body_field_witness :
    body_field operation_c6 = body_field_ref "User" := by
  have h := C6_body_field operation_c6 _ _ _ rfl rfl rfl
  have h1 := h.1 "#/components/schemas/User" rfl
  rw [h.2.2] at h1
  exact h1

/-- C7.  The generated document is the fixed template around the auth
note slot; the slot holds the note exactly when the Operation's
`security` attribute is present and non-empty, and holds the empty string
otherwise. -/
theorem C7_auth_note (path method : String) (op : Operation) :
    (generate_mdx_content path method op =
      ("---\ntitle: \"" ++ mdx_title path method op ++ "\"\napi: \""
          ++ str_upper method ++ " " ++ path ++ "\"\ndescription: \""
          ++ final_description path method op ++ "\"\n---\n\n## Overview\n\n"
          ++ final_description path method op ++ "\n\n")
        ++ auth_note op
        ++ ("## Request\n\n" ++ request_fields op
            ++ "## Response Codes\n\n" ++ response_fields op.responses
            ++ example_requests path method)) ∧
    (auth_note op = auth_note_text ↔ ∃ s, op.security = some s ∧ s ≠ []) ∧
    ((¬ ∃ s, op.security = some s ∧ s ≠ []) → auth_note op = "") := by
  refine ⟨?_, ?_, ?_⟩
  · simp only [generate_mdx_content, String.append_assoc]
  · constructor
    · intro hE
      rcases hs : op.security with _ | s
      · rw [auth_note, hs] at hE
        simp at hE
        exact absurd hE (by decide)
      · rcases s with _ | ⟨x, xs⟩
        · rw [auth_note, hs] at hE
          simp at hE
          exact absurd hE (by decide)
        · exact ⟨x :: xs, rfl, by simp⟩
    · rintro ⟨s, hsome, hne⟩
      rcases s with _ | ⟨x, xs⟩
      · exact absurd rfl hne
      · rw [auth_note, hsome]
        simp
  · intro hno
    cases hs : op.security with
    | none => simp [auth_note, hs]
    | some s =>
      cases s with
      | nil => simp [auth_note, hs]
      | cons x xs =>
        exact absurd ⟨x :: xs, hs, by simp⟩ hno

/-- C7 witness: an Operation without a `security` attribute renders no
note, one with a non-empty `security` list renders the note. -/
theorem C7_auth_note_witness :
    auth_note ({} : Operation) = "" ∧
    auth_note { security := some [Json.obj [("bearerAuth", Json.arr [])]] } =
      auth_note_text := by
  constructor
  · exact (C7_auth_note "/x" "get" {}).2.2 (by simp)
  · exact (C7_auth_note "/x" "get"
      { security := some [Json.obj [("bearerAuth", Json.arr [])]] }).2.1.mpr
      ⟨[Json.obj [("bearerAuth", Json.arr [])]], rfl, by simp⟩

/-- C8.  The batch loop produces exactly the rendered file of every
(path, method) pair whose method is in the allowed set, one file per
pair, in specification order, and the reported count is the number of
such pairs; pairs with other methods contribute nothing. -/
theorem C8_batch_loop (paths : List (String × List (String × Operation))) :
    regenerate_all_docs paths =
      ((qualifying_pairs paths).map rendered_file,
       (qualifying_pairs paths).length) := by
  rw [regenerate_all_docs, path_step_foldl]
  simp

/-- C9.  An Operation with an empty parameter list and no request body
still renders every template section: the request section is present with
an empty body, immediately followed by the response-codes section. -/
theorem C9_empty_request_section (path method : String) (op : Operation)
    (hp : op.parameters = []) (hb : op.requestBody = none) :
    request_fields op = "" ∧
    generate_mdx_content path method op =
      "---\ntitle: \"" ++ mdx_title path method op ++ "\"\napi: \""
        ++ str_upper method ++ " " ++ path ++ "\"\ndescription: \""
        ++ final_description path method op ++ "\"\n---\n\n## Overview\n\n"
        ++ final_description path method op ++ "\n\n" ++ auth_note op
        ++ ("## Request\n\n" ++ ("## Response Codes\n\n"
        ++ (response_fields op.responses ++ example_requests path method))) := by
  have hreq : request_fields op = "" := by
    rw [request_fields, hp]
    simp only [body_field, hb, fields_for, String.append_empty]
  refine ⟨hreq, ?_⟩
  simp only [generate_mdx_content, hreq, String.append_empty, String.empty_append,
    String.append_assoc]

/-- C9 witness: the empty Operation renders an empty request body and the
full template. -/
theorem C9_empty_request_section_witness :
    request_fields ({} : Operation) = "" :=
  (C9_empty_request_section "/x" "get" {} rfl rfl).1

/-- C10.  The front-matter title is the `summary` attribute when present
and the upper-cased method followed by the raw path otherwise, and the
document starts with that title in its front matter. -/
theorem C10_front_matter_title (path method : String) (op : Operation) :
    (op.summary = none → mdx_title path method op = str_upper method ++ " " ++ path) ∧
    (∀ s, op.summary = some s → mdx_title path method op = s) ∧
    (∃ rest, generate_mdx_content path method op =
      "---\ntitle: \"" ++ (mdx_title path method op ++ rest)) := by
  refine ⟨?_, ?_, ?_⟩
  · intro hs
    rw [mdx_title, hs]
    rfl
  · intro s hs
    rw [mdx_title, hs]
    rfl
  · refine ⟨"\"\napi: \"" ++ str_upper method ++ " " ++ path ++ "\"\ndescription: \""
      ++ final_description path method op ++ "\"\n---\n\n## Overview\n\n"
      ++ final_description path method op ++ "\n\n" ++ auth_note op
      ++ "## Request\n\n" ++ request_fields op
      ++ "## Response Codes\n\n" ++ response_fields op.responses
      ++ example_requests path method, ?_⟩
    simp only [generate_mdx_content, String.append_assoc]

/-- C10 witness: with no summary the title is "GET /users/\x7bid\x7d",
with a summary it is the summary itself. -/
theorem C10_front_matter_title_witness :
    mdx_title "/users/\x7bid\x7d" "get" ({} : Operation) = "GET /users/\x7bid\x7d" ∧
    mdx_title "/users/\x7bid\x7d" "get" { summary := some "Get user" } = "Get user" := by
  constructor
  · rw [(C10_front_matter_title "/users/\x7bid\x7d" "get" {}).1 rfl]
    decide
  · exact (C10_front_matter_title "/users/\x7bid\x7d" "get"
      { summary := some "Get user" }).2.1 "Get user" rfl

end RegenDocs
